import Mathlib

/-!
Verification development for the yorkie PushPull synchronization core.

The development shallowly embeds three source units:
* `pkg/document/change/id.go` — the Lamport-timestamped change identifier,
* the auth package (`AccessAttributes`, `VerifyAccess`, `withExponentialBackoff`,
  `shouldRetry`),
* `yorkie/packs/packs.go` — the `PushPull` engine and its asynchronous tail.

Go machine integers are modelled as `Nat` with explicit reduction modulo
`2^32` (uint32) and `2^64` (uint64) wherever the source performs arithmetic
that can overflow.  Go pointers that may be nil are modelled as `Option`.
Collaborators whose code is outside the embedded units (storage, coordinator,
HTTP transport, cache) are modelled as explicit function parameters, so that
the control flow of the embedded functions is stated exactly as in the source.
-/

namespace Yorkie

/-- Modulus of Go uint32 arithmetic. -/
def U32 : Nat := 2 ^ 32

/-- Modulus of Go uint64 arithmetic. -/
def U64 : Nat := 2 ^ 64

/-- Embedding of `change.ID` (pkg/document/change/id.go).  `clientSeq` is a Go
uint32, `lamport` a Go uint64, `serverSeq` a nillable `*uint64`, and `actorID`
an opaque actor identifier. -/
structure ID where
  clientSeq : Nat
  serverSeq : Option Nat
  lamport : Nat
  actorID : Nat
deriving DecidableEq

/-- Embedding of `change.NewID`: the `serverSeq` field is left unset (nil). -/
def NewID (clientSeq : Nat) (lamport : Nat) (actorID : Nat) : ID :=
  { clientSeq := clientSeq, serverSeq := none, lamport := lamport, actorID := actorID }

/-- Embedding of `change.InitialID` with the reserved initial actor modelled as `0`. -/
def InitialID : ID := NewID 0 0 0

/-- Embedding of `(*ID).Next`: increments `clientSeq` (uint32) and `lamport`
(uint64); the struct literal in the source leaves `serverSeq` nil. -/
def ID.Next (id : ID) : ID :=
  { clientSeq := (id.clientSeq + 1) % U32
    serverSeq := none
    lamport := (id.lamport + 1) % U64
    actorID := id.actorID }

/-- Embedding of `(*ID).SyncLamport`: if the local lamport is smaller than the
received one, adopt the received one; otherwise increment the local lamport
(uint64 arithmetic).  Built with `NewID`, so `serverSeq` is nil. -/
def ID.SyncLamport (id : ID) (otherLamport : Nat) : ID :=
  if id.lamport < otherLamport then NewID id.clientSeq otherLamport id.actorID
  else NewID id.clientSeq ((id.lamport + 1) % U64) id.actorID

/-- Embedding of `(*ID).SetActor`: rebuilds the ID with `NewID`, so `serverSeq`
is nil. -/
def ID.SetActor (id : ID) (actor : Nat) : ID :=
  NewID id.clientSeq id.lamport actor

/-- Embedding of `(*ID).SetServerSeq`: rebuilds the ID with `NewID` and then
stamps the given server sequence. -/
def ID.SetServerSeq (id : ID) (serverSeq : Option Nat) : ID :=
  { NewID id.clientSeq id.lamport id.actorID with serverSeq := serverSeq }

/-- C2 counterexample: at lamport `2^64 - 1` (a legal uint64 value) with
received lamport `0`, `SyncLamport` wraps to lamport `0`, which is neither
`L + 1` nor at least `max L 0`, refuting the claim as stated. -/
theorem syncLamport_overflow_counterexample :
    ((NewID 0 (U64 - 1) 0).SyncLamport 0).lamport = 0 ∧
    ((NewID 0 (U64 - 1) 0).SyncLamport 0).lamport ≠ (NewID 0 (U64 - 1) 0).lamport + 1 ∧
    ¬ max (NewID 0 (U64 - 1) 0).lamport 0 ≤ ((NewID 0 (U64 - 1) 0).SyncLamport 0).lamport := by
  refine ⟨?_, ?_, ?_⟩ <;> decide

/-- C2 (amended): away from the uint64 wrap point (`lamport + 1 < 2^64`),
`SyncLamport L'` yields lamport `L'` when `L' > L` and `L + 1` otherwise, hence
the result is at least `max L L'` and strictly greater than `L` when `L' ≤ L`. -/
theorem syncLamport_law (id : ID) (otherLamport : Nat) (h : id.lamport + 1 < U64) :
    ((id.SyncLamport otherLamport).lamport =
      if id.lamport < otherLamport then otherLamport else id.lamport + 1) ∧
    max id.lamport otherLamport ≤ (id.SyncLamport otherLamport).lamport ∧
    (otherLamport ≤ id.lamport → id.lamport < (id.SyncLamport otherLamport).lamport) := by
  by_cases hlt : id.lamport < otherLamport <;>
    simp [ID.SyncLamport, NewID, hlt, Nat.mod_eq_of_lt h] <;>
    omega

/-- C2 witness: the amended lamport law evaluated at the ID `(0, 3, 0)` and
received lamport `2`. -/
theorem syncLamport_law_witness :
    (((NewID 0 3 0).SyncLamport 2).lamport =
      if (NewID 0 3 0).lamport < 2 then 2 else (NewID 0 3 0).lamport + 1) ∧
    max (NewID 0 3 0).lamport 2 ≤ ((NewID 0 3 0).SyncLamport 2).lamport ∧
    (2 ≤ (NewID 0 3 0).lamport → (NewID 0 3 0).lamport < ((NewID 0 3 0).SyncLamport 2).lamport) :=
  syncLamport_law (NewID 0 3 0) 2 (by decide)

/-- C9: `Next`, `SyncLamport` and `SetActor` all return an ID whose `serverSeq`
is nil even when the receiver's was stamped, while `SetServerSeq` changes only
`serverSeq` and leaves `clientSeq`, `lamport` and `actorID` untouched. -/
theorem id_serverSeq_frame (id : ID) (otherLamport : Nat) (actor : Nat) (s : Option Nat) :
    (id.Next).serverSeq = none ∧
    (id.SyncLamport otherLamport).serverSeq = none ∧
    (id.SetActor actor).serverSeq = none ∧
    (id.SetServerSeq s).clientSeq = id.clientSeq ∧
    (id.SetServerSeq s).lamport = id.lamport ∧
    (id.SetServerSeq s).actorID = id.actorID ∧
    (id.SetServerSeq s).serverSeq = s := by
  refine ⟨?_, ?_, rfl, rfl, rfl, rfl, rfl⟩
  · rfl
  · unfold ID.SyncLamport
    split <;> rfl

/-- C10: at `clientSeq = 2^32 - 1` the uint32 increment in `Next` wraps to `0`
(and the uint64 lamport increment is likewise modular), so `clientSeq` is not
strictly increasing across the 32-bit wrap. -/
theorem next_clientSeq_wraps (id : ID) (h : id.clientSeq = U32 - 1) :
    (id.Next).clientSeq = 0 ∧ (id.Next).lamport = (id.lamport + 1) % U64 := by
  refine ⟨?_, rfl⟩
  simp only [ID.Next, h, U32]
  decide

/-- C10 witness: `Next` on the ID `(2^32 - 1, 5, 7)` wraps `clientSeq` to `0`. -/
theorem next_clientSeq_wraps_witness :
    ((NewID (U32 - 1) 5 7).Next).clientSeq = 0 ∧
    ((NewID (U32 - 1) 5 7).Next).lamport = ((NewID (U32 - 1) 5 7).lamport + 1) % U64 :=
  next_clientSeq_wraps (NewID (U32 - 1) 5 7) rfl

/-- Embedding of `checkpoint.Checkpoint`: a pair of a uint32 client sequence
and a uint64 server sequence. -/
structure Checkpoint where
  clientSeq : Nat
  serverSeq : Nat
deriving DecidableEq

/-- Embedding of `time.Ticket`: lamport (uint64), delimiter (uint32) and an
opaque actor identifier. -/
structure TimeTicket where
  lamport : Nat
  delimiter : Nat
  actorID : Nat
deriving DecidableEq

/-- A pushed change.  The core treats operations as opaque, so only an opaque
payload is retained; `PushPull` and `AccessAttributes` never inspect it. -/
structure Change where
  payload : Nat
deriving DecidableEq

/-- Embedding of `change.Pack`, the request side of a sync.  `documentKey`
stands for `pack.DocumentKey.BSONKey()`. -/
structure Pack where
  documentKey : String
  checkpoint : Checkpoint
  changes : List Change
  minSyncedTicket : Option TimeTicket
deriving DecidableEq

/-- Modelled from the spec: `HasChanges()` is true iff `changes` is non-empty
(§4.2; `change/pack.go` is not among the embedded sources). -/
def Pack.HasChanges (p : Pack) : Bool := ¬ p.changes.isEmpty

/-- Embedding of `types.AccessAttribute` verbs `Read` ("r") and `ReadWrite` ("rw"). -/
inductive Verb
  | read
  | readWrite
deriving DecidableEq

/-- Embedding of `types.AccessAttribute`. -/
structure AccessAttribute where
  key : String
  verb : Verb
deriving DecidableEq

/-- Embedding of `auth.AccessAttributes`: the verb defaults to `Read` and is
upgraded to `ReadWrite` when the pack carries changes; the result is the
single attribute for the pack's document key. -/
def AccessAttributes (pack : Pack) : List AccessAttribute :=
  [{ key := pack.documentKey
     verb := if pack.HasChanges then Verb.readWrite else Verb.read }]

/-- C7: `AccessAttributes` returns exactly one attribute, keyed by the pack's
document key, with verb `Read` when the pack has no pushed changes and
`ReadWrite` when it has at least one. -/
theorem accessAttributes_single (pack : Pack) :
    AccessAttributes pack =
      [{ key := pack.documentKey
         verb := if pack.changes = [] then Verb.read else Verb.readWrite }] := by
  rcases pack with ⟨dk, cp, changes, mst⟩
  cases changes <;> simp [AccessAttributes, Pack.HasChanges]

/-- The Linux value of `syscall.ECONNRESET`. -/
def ECONNRESET : Nat := 104

/-- The errors a single webhook attempt can surface, mirroring the source:
a transport error carrying a `syscall.Errno`, the sentinel
`ErrUnexpectedStatusCode` for a non-200 status, a body-decoding failure, or an
error wrapping `ErrNotAllowed` with the denial reason. -/
inductive WebhookErr
  | errno (n : Nat)
  | unexpectedStatusCode
  | decodeFailure (msg : String)
  | notAllowed (reason : String)
deriving DecidableEq

/-- Embedding of `auth.shouldRetry`: when the error chain holds an errno, the
attempt is retried iff it is `ECONNRESET`; otherwise it is retried iff the
HTTP status is 500, 503, 504 or 429. -/
def shouldRetry (statusCode : Nat) (err : Option WebhookErr) : Bool :=
  match err with
  | some (.errno n) => n == ECONNRESET
  | _ =>
    statusCode == 500 || statusCode == 503 || statusCode == 504 || statusCode == 429

/-- The possible outcomes of `withExponentialBackoff`, mirroring its return
paths: nil error, a non-retriable attempt error returned as-is, the fresh
"unexpected status code" error built for the `ErrUnexpectedStatusCode`
sentinel, the ambient context's cancellation error, and the final error
wrapping `ErrWebhookTimeout` that carries the outer `statusCode` variable. -/
inductive BackoffResult
  | ok
  | err (e : WebhookErr)
  | unexpectedStatus (code : Nat)
  | ctxErr
  | timeout (code : Nat)
deriving DecidableEq

/-- Embedding of the loop of `auth.withExponentialBackoff`, with the closure
state `σ` threaded explicitly (in the source the closure mutates `authResp`).
`fn retries s` returns the new closure state, the attempt's status code and
its error.  `fuel` counts the remaining iterations of
`for retries <= cfg.AuthWebhookMaxRetries`.  `outerStatus` is the `statusCode`
declared before the loop: the `:=` inside the loop shadows it, so it is never
reassigned and the timeout error carries its initial value.  The last
component of the result counts webhook invocations. -/
def backoffLoop {σ : Type} (fn : Nat → σ → σ × Nat × Option WebhookErr)
    (canceled : Nat → Bool) (outerStatus : Nat) :
    Nat → Nat → σ → BackoffResult × σ × Nat
  | _, 0, s => (.timeout outerStatus, s, 0)
  | retries, fuel + 1, s =>
    match fn retries s with
    | (s', statusCode, err) =>
      if shouldRetry statusCode err then
        if canceled retries then (.ctxErr, s', 1)
        else
          match backoffLoop fn canceled outerStatus (retries + 1) fuel s' with
          | (r, s'', n) => (r, s'', n + 1)
      else
        match err with
        | some .unexpectedStatusCode => (.unexpectedStatus statusCode, s', 1)
        | none => (.ok, s', 1)
        | some e => (.err e, s', 1)

/-- Embedding of `auth.withExponentialBackoff`: run the loop from `retries = 0`
with `maxRetries + 1` available iterations and the outer `statusCode` at its
zero value. -/
def withExponentialBackoff {σ : Type} (maxRetries : Nat)
    (fn : Nat → σ → σ × Nat × Option WebhookErr) (canceled : Nat → Bool)
    (init : σ) : BackoffResult × σ × Nat :=
  backoffLoop fn canceled 0 0 (maxRetries + 1) init

/-- Embedding of `types.AuthWebhookResponse`. -/
structure AuthWebhookResponse where
  allowed : Bool
  reason : String
deriving DecidableEq

/-- One raw exchange with the webhook endpoint: either `http.Post` fails with
a transport error whose chain holds an errno, or an HTTP response arrives with
a status and a body that may or may not decode to an `AuthWebhookResponse`. -/
inductive WebhookOutcome
  | transportErr (n : Nat)
  | httpResp (status : Nat) (body : Except String AuthWebhookResponse)

/-- Embedding of the closure passed to `withExponentialBackoff` inside
`VerifyAccess` (lines 87-117 of the auth source).  The closure state is the
captured `authResp` pointer: it is overwritten by every decode attempt (with
nil on decode failure) and left untouched on transport errors and non-200
statuses. -/
def webhookAttempt (o : WebhookOutcome) (authResp : Option AuthWebhookResponse) :
    Option AuthWebhookResponse × Nat × Option WebhookErr :=
  match o with
  | .transportErr n => (authResp, 0, some (.errno n))
  | .httpResp status body =>
    if status ≠ 200 then (authResp, status, some .unexpectedStatusCode)
    else
      match body with
      | .error msg => (none, status, some (.decodeFailure msg))
      | .ok resp =>
        if !resp.allowed then (some resp, status, some (.notAllowed resp.reason))
        else (some resp, status, none)

/-- The two cache TTLs of the auth webhook cache. -/
inductive TTLKind
  | authTTL
  | unauthTTL
deriving DecidableEq

/-- The errors `VerifyAccess` can return, keyed by which backoff outcome
produced them. -/
inductive VerifyErr
  | notAllowed (reason : String)
  | webhook (e : WebhookErr)
  | unexpectedStatus (code : Nat)
  | ctxCanceled
  | timeout (code : Nat)
deriving DecidableEq

/-- Embedding of `errors.Is(err, ErrNotAllowed)` on the error returned by
`withExponentialBackoff`: only the attempt error built from a parsed denial
wraps the `ErrNotAllowed` sentinel. -/
def errorsIsNotAllowed : BackoffResult → Bool
  | .err (.notAllowed _) => true
  | _ => false

/-- The error value `VerifyAccess` returns for each backoff outcome. -/
def backoffErrToVerifyErr : BackoffResult → Option VerifyErr
  | .ok => none
  | .err (.notAllowed reason) => some (.notAllowed reason)
  | .err e => some (.webhook e)
  | .unexpectedStatus code => some (.unexpectedStatus code)
  | .ctxErr => some .ctxCanceled
  | .timeout code => some (.timeout code)

/-- The observable outcome of a `VerifyAccess` call: the returned error (if
any), the cache insertion it performed (stored value and which TTL), and how
many times the webhook was invoked. -/
structure VerifyOutcome where
  err : Option VerifyErr
  cacheAdd : Option (Option AuthWebhookResponse × TTLKind)
  webhookCalls : Nat
deriving DecidableEq

/-- Embedding of `auth.VerifyAccess`.  `requireAuth` is the result of
`be.Config.RequireAuth(info.Method)`; `cached` is the cache lookup at the
serialized request fingerprint; `outcomes` gives the raw webhook exchange of
each attempt; `canceled` tells whether the ambient context is done at each
backoff wait.  On a hit the cached decision is replayed without touching the
webhook; on a miss the backoff loop runs, a denial is cached under the unauth
TTL, success under the auth TTL, and every other error is returned uncached. -/
def VerifyAccess (requireAuth : Bool) (cached : Option AuthWebhookResponse)
    (maxRetries : Nat) (outcomes : Nat → WebhookOutcome) (canceled : Nat → Bool) :
    VerifyOutcome :=
  if !requireAuth then { err := none, cacheAdd := none, webhookCalls := 0 }
  else
    match cached with
    | some resp =>
      if !resp.allowed then
        { err := some (.notAllowed resp.reason), cacheAdd := none, webhookCalls := 0 }
      else { err := none, cacheAdd := none, webhookCalls := 0 }
    | none =>
      match withExponentialBackoff maxRetries (fun i a => webhookAttempt (outcomes i) a)
          canceled none with
      | (r, authResp, n) =>
        match backoffErrToVerifyErr r with
        | none => { err := none, cacheAdd := some (authResp, .authTTL), webhookCalls := n }
        | some e =>
          if errorsIsNotAllowed r then
            { err := some e, cacheAdd := some (authResp, .unauthTTL), webhookCalls := n }
          else { err := some e, cacheAdd := none, webhookCalls := n }

/-- Helper: the backoff loop invokes the webhook at most `fuel` times. -/
theorem backoffLoop_calls_le {σ : Type} (fn : Nat → σ → σ × Nat × Option WebhookErr)
    (canceled : Nat → Bool) (outerStatus : Nat) :
    ∀ fuel retries s, (backoffLoop fn canceled outerStatus retries fuel s).2.2 ≤ fuel := by
  intro fuel
  induction fuel with
  | zero =>
    intro retries s
    simp [backoffLoop]
  | succ fuel ih =>
    intro retries s
    rcases hfn : fn retries s with ⟨s', statusCode, err⟩
    simp only [backoffLoop, hfn]
    by_cases hr : shouldRetry statusCode err = true
    · rw [if_pos hr]
      by_cases hc : canceled retries = true
      · rw [if_pos hc]
        exact Nat.succ_le_succ (Nat.zero_le fuel)
      · rw [if_neg hc]
        rcases hrec : backoffLoop fn canceled outerStatus (retries + 1) fuel s' with ⟨r, s'', n⟩
        have hle := ih (retries + 1) s'
        rw [hrec] at hle
        exact Nat.succ_le_succ hle
    · rw [if_neg hr]
      split <;> exact Nat.succ_le_succ (Nat.zero_le fuel)

/-- C3: a `VerifyAccess` call that reaches the webhook (auth required, cache
miss) invokes the webhook at most `maxRetries + 1` times before the backoff
loop terminates. -/
theorem verifyAccess_retry_bound (maxRetries : Nat) (outcomes : Nat → WebhookOutcome)
    (canceled : Nat → Bool) :
    (VerifyAccess true none maxRetries outcomes canceled).webhookCalls ≤ maxRetries + 1 := by
  have hle := backoffLoop_calls_le (fun i a => webhookAttempt (outcomes i) a) canceled 0
    (maxRetries + 1) 0 none
  unfold VerifyAccess withExponentialBackoff
  rcases hres : backoffLoop (fun i a => webhookAttempt (outcomes i) a) canceled 0 0
      (maxRetries + 1) none with ⟨r, authResp, n⟩
  rw [hres] at hle
  simp only [hres, Bool.not_true, Bool.false_eq_true, if_false]
  split
  · exact hle
  · split <;> exact hle

/-- C5 counterexample: an HTTP 502 response without a transport error is not
retried by `shouldRetry`, although 502 is in the claim's retriable status set. -/
theorem shouldRetry_502_counterexample :
    shouldRetry 502 none = false ∧
    (502 = 500 ∨ 502 = 502 ∨ 502 = 503 ∨ 502 = 504 ∨ 502 = 429) := by
  constructor
  · decide
  · right; left; rfl

/-- C5 (amended): an attempt is retried iff either the transport error chain
holds exactly the connection-reset errno, or no errno is present and the HTTP
status is 500, 503, 504 or 429 (502 is not retriable). -/
theorem shouldRetry_characterization (statusCode : Nat) (err : Option WebhookErr) :
    shouldRetry statusCode err = true ↔
      ((∃ n, err = some (.errno n) ∧ n = ECONNRESET) ∨
       ((∀ n, err ≠ some (.errno n)) ∧
        (statusCode = 500 ∨ statusCode = 503 ∨ statusCode = 504 ∨ statusCode = 429))) := by
  cases err with
  | none => simp [shouldRetry]; tauto
  | some e => cases e <;> simp [shouldRetry] <;> tauto

/-- C6: when retries are exhausted, the timeout error reports status `0`
rather than the status of the last attempt: here every attempt returns HTTP
503, two attempts are made (`maxRetries = 1`), yet the `WebhookTimeout` error
carries `0`, because the `:=` inside the loop shadows the `statusCode`
variable used to build the final error. -/
theorem backoff_timeout_reports_zero_status :
    withExponentialBackoff 1
        (fun _ (s : Unit) => (s, 503, some WebhookErr.unexpectedStatusCode))
        (fun _ => false) () =
      (.timeout 0, (), 2) := by
  rfl

/-- Helper: whenever the backoff loop over the `VerifyAccess` webhook closure
returns the denial error, the captured `authResp` holds the parsed denial body
with the same reason. -/
theorem backoffLoop_notAllowed_resp (outcomes : Nat → WebhookOutcome) (canceled : Nat → Bool)
    (outerStatus : Nat) :
    ∀ fuel retries a r ar n,
      backoffLoop (fun i x => webhookAttempt (outcomes i) x) canceled outerStatus retries fuel a
        = (r, ar, n) →
      ∀ reason, r = .err (.notAllowed reason) →
      ∃ resp, ar = some resp ∧ resp.allowed = false ∧ resp.reason = reason := by
  intro fuel
  induction fuel with
  | zero =>
    intro retries a r ar n h reason hr
    subst hr
    simp only [backoffLoop, Prod.mk.injEq] at h
    exact absurd h.1 (by simp)
  | succ fuel ih =>
    intro retries a r ar n h reason hr
    subst hr
    simp only [backoffLoop] at h
    rcases hat : webhookAttempt (outcomes retries) a with ⟨a', statusCode, err⟩
    rw [hat] at h
    simp only [] at h
    by_cases hretry : shouldRetry statusCode err = true
    · rw [if_pos hretry] at h
      by_cases hc : canceled retries = true
      · rw [if_pos hc] at h
        simp at h
      · rw [if_neg hc] at h
        rcases hrec : backoffLoop (fun i x => webhookAttempt (outcomes i) x) canceled
            outerStatus (retries + 1) fuel a' with ⟨r1, ar1, n1⟩
        rw [hrec] at h
        simp only [Prod.mk.injEq] at h
        obtain ⟨h1, h2, h3⟩ := h
        exact ih (retries + 1) a' _ ar n1 (by rw [hrec, h1, h2]) reason rfl
    · rw [if_neg hretry] at h
      rcases err with _ | e
      · simp at h
      · cases e with
        | errno m => simp at h
        | unexpectedStatusCode => simp at h
        | decodeFailure msg => simp at h
        | notAllowed rs =>
          simp only [Prod.mk.injEq, BackoffResult.err.injEq, WebhookErr.notAllowed.injEq] at h
          obtain ⟨h1, h2, h3⟩ := h
          rcases ho : outcomes retries with m | ⟨status, body⟩ <;>
            rw [ho] at hat <;> simp only [webhookAttempt] at hat
          · simp at hat
          · by_cases hst : status = 200
            · rw [if_neg (by simp [hst])] at hat
              rcases body with msg | resp
              · simp at hat
              · by_cases hal : resp.allowed = true
                · simp [hal] at hat
                · simp only [Bool.not_eq_true] at hal
                  simp only [hal, Bool.not_false, if_true, Prod.mk.injEq, Option.some.injEq,
                    WebhookErr.notAllowed.injEq] at hat
                  obtain ⟨ha1, _, ha3⟩ := hat
                  exact ⟨resp, by rw [← h2, ← ha1], hal, by rw [← h1, ← ha3]⟩
            · rw [if_pos (by simp [hst])] at hat
              simp at hat

/-- C4: on a cache miss with auth required, a completed webhook exchange ending
in a `NotAllowed` denial stores the parsed denial in the cache under the
unauth TTL and returns the error; a successful exchange stores the allow under
the auth TTL and returns success; every other error (transport failure,
unexpected status, undecodable body, timeout, cancellation) is returned with
no cache insertion. -/
theorem verifyAccess_cache_policy (maxRetries : Nat) (outcomes : Nat → WebhookOutcome)
    (canceled : Nat → Bool) (r : BackoffResult) (ar : Option AuthWebhookResponse) (n : Nat)
    (hres : withExponentialBackoff maxRetries (fun i a => webhookAttempt (outcomes i) a)
        canceled none = (r, ar, n)) :
    (errorsIsNotAllowed r = true →
      VerifyAccess true none maxRetries outcomes canceled =
        { err := backoffErrToVerifyErr r, cacheAdd := some (ar, .unauthTTL),
          webhookCalls := n } ∧
      ∃ reason resp, r = .err (.notAllowed reason) ∧ ar = some resp ∧
        resp.allowed = false ∧ resp.reason = reason) ∧
    (r = .ok →
      VerifyAccess true none maxRetries outcomes canceled =
        { err := none, cacheAdd := some (ar, .authTTL), webhookCalls := n }) ∧
    (r ≠ .ok → errorsIsNotAllowed r = false →
      ∃ e, backoffErrToVerifyErr r = some e ∧
        VerifyAccess true none maxRetries outcomes canceled =
          { err := some e, cacheAdd := none, webhookCalls := n }) := by
  have hV : VerifyAccess true none maxRetries outcomes canceled =
      match backoffErrToVerifyErr r with
      | none => { err := none, cacheAdd := some (ar, .authTTL), webhookCalls := n }
      | some e =>
        if errorsIsNotAllowed r = true then
          { err := some e, cacheAdd := some (ar, .unauthTTL), webhookCalls := n }
        else { err := some e, cacheAdd := none, webhookCalls := n } := by
    unfold VerifyAccess
    rw [hres]
    exact rfl
  refine ⟨?_, ?_, ?_⟩
  · intro hna
    obtain ⟨reason, rfl⟩ : ∃ reason, r = .err (.notAllowed reason) := by
      cases r with
      | err e => cases e <;> simp_all [errorsIsNotAllowed]
      | _ => simp_all [errorsIsNotAllowed]
    refine ⟨by rw [hV]; exact rfl, ?_⟩
    obtain ⟨resp, h1, h2, h3⟩ := backoffLoop_notAllowed_resp outcomes canceled 0
      (maxRetries + 1) 0 none _ ar n hres reason rfl
    exact ⟨reason, resp, rfl, h1, h2, h3⟩
  · intro hok
    subst hok
    rw [hV]
    exact rfl
  · intro hne hnotna
    cases r with
    | ok => exact absurd rfl hne
    | err e =>
      cases e with
      | notAllowed reason => simp [errorsIsNotAllowed] at hnotna
      | errno m => exact ⟨.webhook (.errno m), rfl, by rw [hV]; exact rfl⟩
      | unexpectedStatusCode => exact ⟨.webhook .unexpectedStatusCode, rfl, by rw [hV]; exact rfl⟩
      | decodeFailure msg => exact ⟨.webhook (.decodeFailure msg), rfl, by rw [hV]; exact rfl⟩
    | unexpectedStatus code => exact ⟨.unexpectedStatus code, rfl, by rw [hV]; exact rfl⟩
    | ctxErr => exact ⟨.ctxCanceled, rfl, by rw [hV]; exact rfl⟩
    | timeout code => exact ⟨.timeout code, rfl, by rw [hV]; exact rfl⟩

/-- C4 witness: a single attempt answering HTTP 200 with a denial body of
reason "no" makes `VerifyAccess` cache the denial under the unauth TTL and
return the `NotAllowed` error. -/
theorem verifyAccess_cache_policy_witness :
    VerifyAccess true none 0 (fun _ => .httpResp 200 (.ok ⟨false, "no"⟩)) (fun _ => false) =
      { err := some (.notAllowed "no"),
        cacheAdd := some (some ⟨false, "no"⟩, .unauthTTL), webhookCalls := 1 } :=
  ((verifyAccess_cache_policy 0 (fun _ => .httpResp 200 (.ok ⟨false, "no"⟩)) (fun _ => false)
      (.err (.notAllowed "no")) (some ⟨false, "no"⟩) 1 rfl).1 rfl).1

/-- Embedding of `db.ClientInfo`: the client identifier and the per-document
checkpoint map.  `PushPull` mutates only the checkpoint map (through
`UpdateCheckpoint`); the identifier is read-only. -/
structure ClientInfo where
  id : String
  checkpoints : List (String × Checkpoint)
deriving DecidableEq

/-- Embedding of `db.DocInfo`: identifier, key and the highest assigned server
sequence.  `PushPull` mutates only `serverSeq` (inside `pushChanges`). -/
structure DocInfo where
  id : String
  key : String
  serverSeq : Nat
deriving DecidableEq

/-- Embedding of the response `ServerPack` as far as `PushPull` touches it:
its checkpoint, the number of returned changes, and the min-synced ticket that
`PushPull` attaches after step 04. -/
structure ServerPack where
  documentKey : String
  checkpoint : Checkpoint
  changesLen : Nat
  minSyncedTicket : Option TimeTicket
deriving DecidableEq

/-- The collaborators `PushPull` calls, in source order: `pushChanges` and
`pullPack` (same package, outside the embedded file's claims), the client's
`UpdateCheckpoint`, the storage operations `CreateChangeInfos`,
`UpdateClientInfoAfterPushPull` and `UpdateAndFindMinSyncedTicket`, and the
asynchronous tail's `ActorIDFromHex`, `NewLocker` and `TryLock`.  Each is a
function parameter so `PushPull` itself is stated exactly as in the source;
`pushChanges` returns the pushed checkpoint, the accepted changes and the
advanced document server sequence, and `updateCheckpoint` returns the updated
checkpoint map. -/
structure Collaborators where
  pushChanges : ClientInfo → DocInfo → Pack → Nat → Except String (Checkpoint × List Change × Nat)
  pullPack : ClientInfo → DocInfo → Pack → Checkpoint → Nat → Except String ServerPack
  updateCheckpoint : ClientInfo → String → Checkpoint → Except String (List (String × Checkpoint))
  createChangeInfos : DocInfo → Nat → List Change → Except String Unit
  updateClientInfoAfterPushPull : ClientInfo → DocInfo → Except String Unit
  updateAndFindMinSyncedTicket : ClientInfo → String → Nat → Except String TimeTicket
  actorIDFromHex : String → Except String Nat
  newLocker : String → Except String Unit
  tryLock : String → Bool

/-- Embedding of `packs.NewPushPullKey`. -/
def NewPushPullKey (documentKey : String) : String := "pushpull-" ++ documentKey

/-- Embedding of `packs.NewSnapshotKey`. -/
def NewSnapshotKey (documentKey : String) : String := "snapshot-" ++ documentKey

/-- The observable actions of the asynchronous goroutine launched by
`PushPull`: the `DocumentsChangedEvent` publication, the snapshot store, and
the deferred unlock. -/
inductive TaskEvent
  | publish (publisher : Nat) (documentKey : String)
  | snapshot (docID : String) (minSyncedTicket : TimeTicket)
  | unlock
deriving DecidableEq

/-- Whether a task event is the `DocumentsChangedEvent` publication. -/
def TaskEvent.isPublish : TaskEvent → Bool
  | .publish _ _ => true
  | _ => false

/-- Whether a task event is the snapshot store. -/
def TaskEvent.isSnapshot : TaskEvent → Bool
  | .snapshot _ _ => true
  | _ => false

/-- Embedding of the goroutine body launched at step 05 of `PushPull`: derive
the publisher actor from the client id (on failure only log and return),
create the `snapshot-<documentKey>` locker (on failure only log and return),
`TryLock` it (on failure return silently), then publish the change event,
store the snapshot at the min-synced ticket, and unlock via `defer`.  The
result lists the observable actions in order. -/
def asyncTask (co : Collaborators) (clientInfo : ClientInfo) (docInfo : DocInfo)
    (reqPack : Pack) (minSyncedTicket : TimeTicket) : List TaskEvent :=
  match co.actorIDFromHex clientInfo.id with
  | .error _ => []
  | .ok publisherID =>
    match co.newLocker (NewSnapshotKey reqPack.documentKey) with
    | .error _ => []
    | .ok _ =>
      if co.tryLock (NewSnapshotKey reqPack.documentKey) then
        [.publish publisherID reqPack.documentKey,
         .snapshot docInfo.id minSyncedTicket,
         .unlock]
      else []

/-- Embedding of `packs.PushPull` (yorkie/packs/packs.go).  Steps in source
order: capture `initialServerSeq` (here `docInfo.serverSeq`, since the embedded
`docInfo` is an immutable value and the advanced sequence travels separately);
01 push changes; 02 pull the response pack;
update the client checkpoint to the response checkpoint; 03 persist pushed
changes (only if any) and the client info; 04 update and find the min-synced
ticket at the request pack's checkpoint server sequence and attach it to the
response; 05 launch the asynchronous publish/snapshot task only when the
request pack has changes.  The result carries the response pack and the
launched task's action list (`none` when no task was launched). -/
def PushPull (co : Collaborators) (clientInfo : ClientInfo) (docInfo : DocInfo)
    (reqPack : Pack) : Except String (ServerPack × Option (List TaskEvent)) :=
  match co.pushChanges clientInfo docInfo reqPack docInfo.serverSeq with
  | .error e => .error e
  | .ok (pushedCP, pushedChanges, newServerSeq) =>
    match co.pullPack clientInfo { docInfo with serverSeq := newServerSeq } reqPack
        pushedCP docInfo.serverSeq with
    | .error e => .error e
    | .ok respPack =>
      match co.updateCheckpoint clientInfo docInfo.id respPack.checkpoint with
      | .error e => .error e
      | .ok cps =>
        match (if 0 < pushedChanges.length then
            co.createChangeInfos { docInfo with serverSeq := newServerSeq }
              docInfo.serverSeq pushedChanges
          else .ok ()) with
        | .error e => .error e
        | .ok _ =>
          match co.updateClientInfoAfterPushPull { clientInfo with checkpoints := cps }
              { docInfo with serverSeq := newServerSeq } with
          | .error e => .error e
          | .ok _ =>
            match co.updateAndFindMinSyncedTicket { clientInfo with checkpoints := cps }
                docInfo.id reqPack.checkpoint.serverSeq with
            | .error e => .error e
            | .ok minSyncedTicket =>
              .ok ({ respPack with minSyncedTicket := some minSyncedTicket },
                if reqPack.HasChanges then
                  some (asyncTask co { clientInfo with checkpoints := cps }
                    { docInfo with serverSeq := newServerSeq } reqPack minSyncedTicket)
                else none)

/-- Helper: inversion of a successful `PushPull` run, exposing the updated
client info, the updated doc info, the min-synced ticket call made at the
request checkpoint's server sequence, the attached ticket, and the shape of
the launched task. -/
theorem pushPull_ok_inv (co : Collaborators) (clientInfo : ClientInfo) (docInfo : DocInfo)
    (reqPack : Pack) (resp : ServerPack) (task : Option (List TaskEvent))
    (h : PushPull co clientInfo docInfo reqPack = .ok (resp, task)) :
    ∃ (ci1 : ClientInfo) (di1 : DocInfo) (mst : TimeTicket) (rp : ServerPack),
      di1.id = docInfo.id ∧
      co.updateAndFindMinSyncedTicket ci1 docInfo.id reqPack.checkpoint.serverSeq = .ok mst ∧
      resp = { rp with minSyncedTicket := some mst } ∧
      task = (if reqPack.HasChanges then
          some (asyncTask co ci1 di1 reqPack mst)
        else none) := by
  unfold PushPull at h
  rcases h1 : co.pushChanges clientInfo docInfo reqPack docInfo.serverSeq with e | v
  · rw [h1] at h; exact absurd h (by simp)
  obtain ⟨pushedCP, pushedChanges, newServerSeq⟩ := v
  rw [h1] at h
  simp only [] at h
  rcases h2 : co.pullPack clientInfo { docInfo with serverSeq := newServerSeq } reqPack
      pushedCP docInfo.serverSeq with e | respPack
  · rw [h2] at h; exact absurd h (by simp)
  rw [h2] at h
  simp only [] at h
  rcases h3 : co.updateCheckpoint clientInfo docInfo.id respPack.checkpoint with e | cps
  · rw [h3] at h; exact absurd h (by simp)
  rw [h3] at h
  simp only [] at h
  rcases h4 : (if 0 < pushedChanges.length then
      co.createChangeInfos { docInfo with serverSeq := newServerSeq }
        docInfo.serverSeq pushedChanges
    else .ok ()) with e | u
  · rw [h4] at h; exact absurd h (by simp)
  rw [h4] at h
  simp only [] at h
  rcases h5 : co.updateClientInfoAfterPushPull { clientInfo with checkpoints := cps }
      { docInfo with serverSeq := newServerSeq } with e | u'
  · rw [h5] at h; exact absurd h (by simp)
  rw [h5] at h
  simp only [] at h
  rcases h6 : co.updateAndFindMinSyncedTicket { clientInfo with checkpoints := cps }
      docInfo.id reqPack.checkpoint.serverSeq with e | mst
  · rw [h6] at h; exact absurd h (by simp)
  rw [h6] at h
  simp only [Except.ok.injEq, Prod.mk.injEq] at h
  obtain ⟨hresp, htask⟩ := h
  exact ⟨{ clientInfo with checkpoints := cps }, { docInfo with serverSeq := newServerSeq },
    mst, respPack, rfl, h6, hresp.symm, htask.symm⟩

/-- C1: every successful `PushPull` invokes `UpdateAndFindMinSyncedTicket`
with the request pack's checkpoint server sequence — not the response pack's —
and attaches the returned ticket to the response as `MinSyncedTicket`. -/
theorem pushPull_minSynced_from_request (co : Collaborators) (clientInfo : ClientInfo)
    (docInfo : DocInfo) (reqPack : Pack) (resp : ServerPack) (task : Option (List TaskEvent))
    (h : PushPull co clientInfo docInfo reqPack = .ok (resp, task)) :
    ∃ (ci1 : ClientInfo) (t : TimeTicket),
      co.updateAndFindMinSyncedTicket ci1 docInfo.id reqPack.checkpoint.serverSeq = .ok t ∧
      resp.minSyncedTicket = some t := by
  obtain ⟨ci1, di1, mst, rp, _, hcall, hresp, _⟩ :=
    pushPull_ok_inv co clientInfo docInfo reqPack resp task h
  exact ⟨ci1, mst, hcall, by rw [hresp]⟩

/-- Helper: the asynchronous task publishes or snapshots only when the
`snapshot-<documentKey>` TryLock succeeds, and a failed TryLock yields an
empty action list. -/
theorem asyncTask_lock_gate (co : Collaborators) (ci : ClientInfo) (di : DocInfo)
    (p : Pack) (t : TimeTicket) :
    (co.tryLock (NewSnapshotKey p.documentKey) = false → asyncTask co ci di p t = []) ∧
    (∀ e ∈ asyncTask co ci di p t, e.isPublish = true ∨ e.isSnapshot = true →
      co.tryLock (NewSnapshotKey p.documentKey) = true) := by
  unfold asyncTask
  rcases co.actorIDFromHex ci.id with _ | publisherID
  · simp
  rcases co.newLocker (NewSnapshotKey p.documentKey) with _ | u
  · simp
  by_cases hl : co.tryLock (NewSnapshotKey p.documentKey) = true
  · simp [hl]
  · simp only [Bool.not_eq_true] at hl
    simp [hl]

/-- C8: in a successful `PushPull`, the asynchronous publish/snapshot task is
launched exactly when the request pack has changes, and inside the task the
`DocumentsChangedEvent` publication and the snapshot store happen only when
the `snapshot-<documentKey>` TryLock succeeds; a failed TryLock makes the task
return without publishing or snapshotting. -/
theorem pushPull_async_gating (co : Collaborators) (clientInfo : ClientInfo)
    (docInfo : DocInfo) (reqPack : Pack) (resp : ServerPack) (task : Option (List TaskEvent))
    (h : PushPull co clientInfo docInfo reqPack = .ok (resp, task)) :
    (task.isSome = reqPack.HasChanges) ∧
    (∀ tr, task = some tr →
      (co.tryLock (NewSnapshotKey reqPack.documentKey) = false → tr = []) ∧
      (∀ e ∈ tr, e.isPublish = true ∨ e.isSnapshot = true →
        co.tryLock (NewSnapshotKey reqPack.documentKey) = true)) := by
  obtain ⟨ci1, di1, mst, rp, _, _, _, htask⟩ :=
    pushPull_ok_inv co clientInfo docInfo reqPack resp task h
  subst htask
  constructor
  · by_cases hc : reqPack.HasChanges = true
    · simp [hc]
    · simp only [Bool.not_eq_true] at hc
      simp [hc]
  · intro tr htr
    by_cases hc : reqPack.HasChanges = true
    · rw [if_pos hc] at htr
      obtain rfl : asyncTask co ci1 di1 reqPack mst = tr := by
        injection htr
      exact asyncTask_lock_gate co ci1 di1 reqPack mst
    · simp only [Bool.not_eq_true] at hc
      rw [hc] at htr
      simp at htr

/-- A concrete collaborator bundle for witnesses: the min-synced oracle only
answers at server sequence 7 (the request checkpoint's), and the pulled
response checkpoint deliberately carries a different server sequence (99). -/
def sampleCo : Collaborators where
  pushChanges := fun _ _ p _ => .ok (⟨p.checkpoint.clientSeq + 1, 11⟩, p.changes, 11)
  pullPack := fun _ _ _ cp _ => .ok ⟨"doc1", ⟨cp.clientSeq, 99⟩, 0, none⟩
  updateCheckpoint := fun _ d cp => .ok [(d, cp)]
  createChangeInfos := fun _ _ _ => .ok ()
  updateClientInfoAfterPushPull := fun _ _ => .ok ()
  updateAndFindMinSyncedTicket := fun _ _ s => if s = 7 then .ok ⟨5, 0, 1⟩ else .error "seq"
  actorIDFromHex := fun _ => .ok 1
  newLocker := fun _ => .ok ()
  tryLock := fun _ => true

/-- A concrete request pack with one change and checkpoint `(3, 7)`. -/
def samplePack : Pack := ⟨"doc1", ⟨3, 7⟩, [⟨4⟩], none⟩

/-- A concrete client info. -/
def sampleClient : ClientInfo := ⟨"c1", []⟩

/-- A concrete doc info at server sequence 10. -/
def sampleDoc : DocInfo := ⟨"d1", "doc1", 10⟩

/-- The response pack `PushPull` produces on the sample inputs. -/
def sampleResp : ServerPack := ⟨"doc1", ⟨4, 99⟩, 0, some ⟨5, 0, 1⟩⟩

/-- The task trace `PushPull` produces on the sample inputs. -/
def sampleTrace : List TaskEvent := [.publish 1 "doc1", .snapshot "d1" ⟨5, 0, 1⟩, .unlock]

/-- C1 witness: on the sample run the min-synced oracle is consulted at the
request's server sequence 7 (the response checkpoint carries 99) and its
ticket is attached to the response. -/
theorem pushPull_minSynced_from_request_witness :
    ∃ (ci1 : ClientInfo) (t : TimeTicket),
      sampleCo.updateAndFindMinSyncedTicket ci1 sampleDoc.id samplePack.checkpoint.serverSeq
        = .ok t ∧
      sampleResp.minSyncedTicket = some t :=
  pushPull_minSynced_from_request sampleCo sampleClient sampleDoc samplePack
    sampleResp (some sampleTrace) rfl

/-- C8 witness: the sample run has changes, so a task is launched, and its
trace satisfies the TryLock gating. -/
theorem pushPull_async_gating_witness :
    ((some sampleTrace : Option (List TaskEvent)).isSome = samplePack.HasChanges) ∧
    (∀ tr, (some sampleTrace : Option (List TaskEvent)) = some tr →
      (sampleCo.tryLock (NewSnapshotKey samplePack.documentKey) = false → tr = []) ∧
      (∀ e ∈ tr, e.isPublish = true ∨ e.isSnapshot = true →
        sampleCo.tryLock (NewSnapshotKey samplePack.documentKey) = true)) :=
  pushPull_async_gating sampleCo sampleClient sampleDoc samplePack
    sampleResp (some sampleTrace) rfl

end Yorkie
